import Mathlib

/-!
Shallow embedding of the application-instance layer of Natron
(src/Engine/AppInstance.h) together with the specification-level models of
the parts whose implementations live outside the visible header
(plugin-version resolution, node creation, render-job building and
blocking dispatch).  Definitions translated directly from the header cite
their line numbers; definitions whose C++ bodies are not in the visible
source are marked `Modelled from the spec:` and follow the wording of the
specification.
-/

/-- Equality of `Except` results is decidable when it is on both sides. -/
instance {ε α : Type} [DecidableEq ε] [DecidableEq α] :
    DecidableEq (Except ε α) := fun a b =>
  match a, b with
  | .ok x, .ok y =>
    if h : x = y then isTrue (by rw [h]) else isFalse (by intro hc; cases hc; exact h rfl)
  | .ok _, .error _ => isFalse (by intro hc; cases hc)
  | .error _, .ok _ => isFalse (by intro hc; cases hc)
  | .error x, .error y =>
    if h : x = y then isTrue (by rw [h]) else isFalse (by intro hc; cases hc; exact h rfl)

/-! ## The creating-node-tree reentrancy flag (C1) -/

/-- The portion of AppInstance state relevant to the "creating node tree"
reentrancy flag. -/
structure AppInstanceFlags where
  creatingNodeTree : Bool
  deriving DecidableEq, Repr

/-- Modelled from the spec: `AppInstance::setIsCreatingNodeTree` (declared at
AppInstance.h line 345, body not in the visible source) stores `b` into the
mutex-protected creating-node-tree flag. -/
def setIsCreatingNodeTree (s : AppInstanceFlags) (b : Bool) : AppInstanceFlags :=
  { s with creatingNodeTree := b }

/-- `AppInstance::isCreatingNodeTree` (AppInstance.h line 343): reads the flag. -/
def isCreatingNodeTree (s : AppInstanceFlags) : Bool :=
  s.creatingNodeTree

/-- The `CreatingNodeTreeFlag_RAII` constructor (AppInstance.h lines 498-502):
it calls `setIsCreatingNodeTree(true)`. -/
def creatingNodeTreeEnter (s : AppInstanceFlags) : AppInstanceFlags :=
  setIsCreatingNodeTree s true

/-- The `CreatingNodeTreeFlag_RAII` destructor (AppInstance.h lines 504-507):
it calls `setIsCreatingNodeTree(false)`, unconditionally. -/
def creatingNodeTreeExit (s : AppInstanceFlags) : AppInstanceFlags :=
  setIsCreatingNodeTree s false

/-- A scoped acquisition of the creating-node-tree flag: construct the RAII
guard, run the guarded body, then run the destructor. -/
def scopedCreatingNodeTree (s : AppInstanceFlags)
    (body : AppInstanceFlags → AppInstanceFlags) : AppInstanceFlags :=
  creatingNodeTreeExit (body (creatingNodeTreeEnter s))

/-! ## CreateNodeArgs (C9) -/

/-- Opaque stand-in for a serialized knob value (`KnobSerialization`). -/
structure KnobSerialization where
  payload : String
  deriving DecidableEq, Repr

/-- Arguments of a node-creation request (`CreateNodeArgs`,
AppInstance.h lines 45-98).  The `group` shared pointer is modelled as an
optional collection key. -/
structure CreateNodeArgs where
  pluginID : String
  majorV : Int
  minorV : Int
  multiInstanceParentName : String
  xPosHint : Float
  yPosHint : Float
  fixedName : String
  paramValues : List KnobSerialization
  group : Option String
  autoConnect : Bool
  pushUndoRedoCommand : Bool
  userEdited : Bool
  addToProject : Bool
  createGui : Bool

/-- The `CreateNodeArgs` constructor (AppInstance.h lines 67-96): every field
is copied from the corresponding argument, and `createGui` is initialised to
`true`; no constructor argument feeds `createGui`. -/
def CreateNodeArgs.construct (pluginID : String) (multiInstanceParentName : String)
    (majorVersion : Int) (minorVersion : Int) (autoConnect : Bool)
    (xPosHint : Float) (yPosHint : Float) (pushUndoRedoCommand : Bool)
    (addToProject : Bool) (userEdited : Bool) (fixedName : String)
    (paramValues : List KnobSerialization) (group : Option String) :
    CreateNodeArgs :=
  { pluginID := pluginID
    majorV := majorVersion
    minorV := minorVersion
    multiInstanceParentName := multiInstanceParentName
    xPosHint := xPosHint
    yPosHint := yPosHint
    fixedName := fixedName
    paramValues := paramValues
    group := group
    autoConnect := autoConnect
    pushUndoRedoCommand := pushUndoRedoCommand
    userEdited := userEdited
    addToProject := addToProject
    createGui := true }

/-! ## The headless question dialog (C10) -/

/-- The standard dialog buttons named in the visible header
(`Natron::StandardButtonEnum`, declared in the out-of-scope GlobalDefines.h). -/
inductive StandardButtonEnum where
  | eStandardButtonNoButton
  | eStandardButtonYes
  | eStandardButtonNo
  deriving DecidableEq, Repr

/-- A combination of standard buttons (`Natron::StandardButtons`). -/
def StandardButtons : Type := List StandardButtonEnum

/-- The base (headless) `AppInstance::questionDialog` overload taking a
`stopAsking` output (AppInstance.h lines 243-251): its body ignores every
argument and returns `eStandardButtonYes`; the `stopAsking` location is never
written, so its value is returned unchanged. -/
def questionDialogStopAsking (title : String) (message : String)
    (useHtml : Bool) (buttons : StandardButtons)
    (defaultButton : StandardButtonEnum) (stopAsking : Bool) :
    StandardButtonEnum × Bool :=
  (StandardButtonEnum.eStandardButtonYes, stopAsking)

/-! ## Minimum and maximum of a list of version numbers -/

/-- Greatest element of a list of naturals, `none` on the empty list. -/
def listMax : List Nat → Option Nat
  | [] => none
  | a :: l =>
    match listMax l with
    | none => some a
    | some b => some (max a b)

/-- Least element of a list of naturals, `none` on the empty list. -/
def listMin : List Nat → Option Nat
  | [] => none
  | a :: l =>
    match listMin l with
    | none => some a
    | some b => some (min a b)

theorem listMax_mem {l : List Nat} {a : Nat} (h : listMax l = some a) :
    a ∈ l := by
  induction l with
  | nil => simp [listMax] at h
  | cons x xs ih =>
    rw [listMax] at h
    cases hx : listMax xs with
    | none => rw [hx] at h; cases h; exact List.mem_cons_self _ _
    | some b =>
      rw [hx] at h
      cases h
      rcases max_choice x b with h1 | h1 <;> rw [h1] at ih ⊢
      · exact List.mem_cons_self _ _
      · exact List.mem_cons_of_mem _ (ih hx)

theorem le_listMax {l : List Nat} {a : Nat} (h : listMax l = some a) :
    ∀ b ∈ l, b ≤ a := by
  induction l generalizing a with
  | nil => simp [listMax] at h
  | cons x xs ih =>
    rw [listMax] at h
    cases hx : listMax xs with
    | none =>
      rw [hx] at h; cases h
      intro b hb
      cases hx2 : xs with
      | nil =>
        subst hx2
        rcases List.mem_singleton.mp hb with rfl
        exact Nat.le_refl _
      | cons y ys => subst hx2; rw [listMax] at hx; cases hx3 : listMax ys <;> rw [hx3] at hx <;> cases hx
    | some c =>
      rw [hx] at h; cases h
      intro b hb
      rcases List.mem_cons.mp hb with rfl | hb2
      · exact Nat.le_max_left _ _
      · exact Nat.le_trans (ih hx b hb2) (Nat.le_max_right _ _)

theorem listMax_ne_none {l : List Nat} (h : l ≠ []) :
    ∃ a, listMax l = some a := by
  cases l with
  | nil => exact absurd rfl h
  | cons x xs =>
    rw [listMax]
    cases listMax xs with
    | none => exact ⟨x, rfl⟩
    | some b => exact ⟨max x b, rfl⟩

theorem listMin_mem {l : List Nat} {a : Nat} (h : listMin l = some a) :
    a ∈ l := by
  induction l with
  | nil => simp [listMin] at h
  | cons x xs ih =>
    rw [listMin] at h
    cases hx : listMin xs with
    | none => rw [hx] at h; cases h; exact List.mem_cons_self _ _
    | some b =>
      rw [hx] at h
      cases h
      rcases min_choice x b with h1 | h1 <;> rw [h1] at ih ⊢
      · exact List.mem_cons_self _ _
      · exact List.mem_cons_of_mem _ (ih hx)

theorem listMin_le {l : List Nat} {a : Nat} (h : listMin l = some a) :
    ∀ b ∈ l, a ≤ b := by
  induction l generalizing a with
  | nil => simp [listMin] at h
  | cons x xs ih =>
    rw [listMin] at h
    cases hx : listMin xs with
    | none =>
      rw [hx] at h; cases h
      intro b hb
      cases hx2 : xs with
      | nil =>
        subst hx2
        rcases List.mem_singleton.mp hb with rfl
        exact Nat.le_refl _
      | cons y ys => subst hx2; rw [listMin] at hx; cases hx3 : listMin ys <;> rw [hx3] at hx <;> cases hx
    | some c =>
      rw [hx] at h; cases h
      intro b hb
      rcases List.mem_cons.mp hb with rfl | hb2
      · exact Nat.min_le_left _ _
      · exact Nat.le_trans (Nat.min_le_right _ _) (ih hx b hb2)

theorem listMin_ne_none {l : List Nat} (h : l ≠ []) :
    ∃ a, listMin l = some a := by
  cases l with
  | nil => exact absurd rfl h
  | cons x xs =>
    rw [listMin]
    cases listMin xs with
    | none => exact ⟨x, rfl⟩
    | some b => exact ⟨min x b, rfl⟩

/-! ## Plugin catalog and version resolution (C2, C4, C8) -/

/-- One registered plugin binary: identifier plus (major, minor) version
(spec §3, PluginDescriptor). -/
structure PluginEntry where
  identifier : String
  major : Nat
  minor : Nat
  deriving DecidableEq, Repr

/-- A plugin catalog is the list of registered entries. -/
abbrev PluginCatalog := List PluginEntry

/-- All major versions registered for an identifier. -/
def catalogMajors (cat : PluginCatalog) (id : String) : List Nat :=
  (cat.filter (fun e => e.identifier == id)).map PluginEntry.major

/-- All minor versions registered for an identifier under a given major. -/
def catalogMinors (cat : PluginCatalog) (id : String) (maj : Nat) : List Nat :=
  (cat.filter (fun e => e.identifier == id && e.major == maj)).map PluginEntry.minor

/-- Node-creation failure taxonomy (spec §7). -/
inductive NodeCreationError where
  | PluginNotFound
  | PluginVersionNotFound
  | NameCollision
  | ConstructionFailed
  deriving DecidableEq, Repr

/-- Modelled from the spec: the major-version selection step of
`resolve(identifier, requestedMajor, requestedMinor)` (spec §4.1; the C++
implementation behind `AppInstance::createNode` is not in the visible
source).  `requestedMajor == -1` picks the greatest registered major for the
identifier; otherwise the requested major must itself be registered. -/
def resolveMajor (cat : PluginCatalog) (id : String) (requestedMajor : Int) :
    Option Nat :=
  if requestedMajor = -1 then listMax (catalogMajors cat id)
  else if (catalogMajors cat id).any (fun k => decide ((k : Int) = requestedMajor))
    then some requestedMajor.toNat
    else none

/-- Modelled from the spec: the minor-version selection step (spec §4.1).
`requestedMinor == -1` picks the greatest minor under the chosen major;
otherwise the smallest registered minor that is ≥ `requestedMinor`. -/
def resolveMinor (minors : List Nat) (requestedMinor : Int) : Option Nat :=
  if requestedMinor = -1 then listMax minors
  else listMin (minors.filter (fun k => decide (requestedMinor ≤ (k : Int))))

/-- Modelled from the spec: full plugin resolution
`resolve(identifier, requestedMajor, requestedMinor) -> PluginDescriptor`
(spec §4.1): a failed major selection is `PluginNotFound`, a failed minor
selection is `PluginVersionNotFound`. -/
def resolve (cat : PluginCatalog) (id : String)
    (requestedMajor requestedMinor : Int) :
    Except NodeCreationError PluginEntry :=
  match resolveMajor cat id requestedMajor with
  | none => .error .PluginNotFound
  | some maj =>
    match resolveMinor (catalogMinors cat id maj) requestedMinor with
    | none => .error .PluginVersionNotFound
    | some mi => .ok ⟨id, maj, mi⟩

/-- Modelled from the spec: lower-casing an identifier for the legacy retry
("a second resolution attempt using a lower-cased identifier"), character by
character. -/
def lowerCaseID (s : String) : String :=
  String.mk (s.data.map Char.toLower)

/-- Modelled from the spec: the legacy lower-case-identifier retry (spec
§4.1; the setter of the flag, `setProjectWasCreatedWithLowerCaseIDs` is declared at
AppInstance.h lines 338-339 with no visible body).  When the flag is set and
the first resolution attempt fails, a second attempt is made with the
identifier lower-cased; when the flag is unset the first failure is final. -/
def resolveWithLegacyFallback (cat : PluginCatalog)
    (projectWasCreatedWithLowerCaseIDs : Bool) (id : String)
    (requestedMajor requestedMinor : Int) :
    Except NodeCreationError PluginEntry :=
  match resolve cat id requestedMajor requestedMinor with
  | .ok p => .ok p
  | .error e =>
    if projectWasCreatedWithLowerCaseIDs then
      resolve cat (lowerCaseID id) requestedMajor requestedMinor
    else .error e

/-! ## Node collection graph and node creation (C3, C7) -/

/-- The NodeCollectionGraph of the spec, restricted to what the claims
observe: the fully-qualified names of the registered nodes, in insertion
order. -/
structure NodeCollectionGraph where
  nodes : List String
  deriving DecidableEq, Repr

/-- `AppInstance::getNodeByFullySpecifiedName` (declared at AppInstance.h
line 205; body not in the visible source).  Modelled from the spec: lookup by
fully-qualified name in the NodeCollectionGraph. -/
def getNodeByFullySpecifiedName (g : NodeCollectionGraph) (nm : String) :
    Option String :=
  if nm ∈ g.nodes then some nm else none

/-- Modelled from the spec: auto-suffixing of a colliding name (spec §4.2,
"generates a unique name (from fixedName if provided and not colliding, else
identifier+auto-suffix)").  The appended suffix is made long enough that the
result cannot equal any existing name. -/
def autoSuffix (existing : List String) (base : String) : String :=
  base ++ String.mk (List.replicate ((existing.map String.length).sum + 1) '1')

/-- Modelled from the spec: the name-generation step of
`AppInstance::createNodeInternal` (declared at AppInstance.h lines 469-478;
body not in the visible source).  A non-colliding fixed name is used as is; a
colliding fixed name is auto-suffixed under the default policy and rejected
with `NameCollision` under the strict fixed-name policy; with no fixed name
the plugin identifier is used, auto-suffixed when it collides (spec §4.2,
§8). -/
def generateNodeName (g : NodeCollectionGraph) (pluginID : String)
    (fixedName : Option String) (strictFixedName : Bool) :
    Except NodeCreationError String :=
  match fixedName with
  | some fn =>
    if fn ∈ g.nodes then
      if strictFixedName then .error .NameCollision
      else .ok (autoSuffix g.nodes fn)
    else .ok fn
  | none =>
    if pluginID ∈ g.nodes then .ok (autoSuffix g.nodes pluginID)
    else .ok pluginID

/-- Modelled from the spec: `AppInstance::createNodeInternal` (declared at
AppInstance.h lines 469-478; body not in the visible source): resolve the
plugin, generate a unique name, construct the node instance (the factory is
an external collaborator, modelled by the `constructionOk` outcome), and only
then insert the node into the NodeCollectionGraph; every failure path returns
the untouched graph together with the reported error (spec §4.2:
all-or-nothing insertion, no error silently swallowed). -/
def createNodeModel (cat : PluginCatalog) (g : NodeCollectionGraph)
    (pluginID : String) (majorV minorV : Int) (fixedName : Option String)
    (strictFixedName : Bool) (constructionOk : Bool) :
    Except NodeCreationError String × NodeCollectionGraph :=
  match resolve cat pluginID majorV minorV with
  | .error e => (.error e, g)
  | .ok _ =>
    match generateNodeName g pluginID fixedName strictFixedName with
    | .error e => (.error e, g)
    | .ok nm =>
      if constructionOk then (.ok nm, ⟨g.nodes ++ [nm]⟩)
      else (.error .ConstructionFailed, g)

/-- Modelled from the spec: `AppInstance::loadNode` (declared at
AppInstance.h line 203; body not in the visible source): the same resolution
and construction path as `createNode`, with the name taken from the
serialization payload; `dontLoadName` forces regeneration (spec §4.2). -/
def loadNodeModel (cat : PluginCatalog) (g : NodeCollectionGraph)
    (pluginID : String) (majorV minorV : Int) (serializedName : String)
    (dontLoadName : Bool) (constructionOk : Bool) :
    Except NodeCreationError String × NodeCollectionGraph :=
  createNodeModel cat g pluginID majorV minorV
    (if dontLoadName then none else some serializedName) false constructionOk

/-! ## Render requests and blocking dispatch (C5, C6) -/

/-- `AppInstance::RenderRequest` (AppInstance.h lines 164-167): a named
writer plus a frame range. -/
structure RenderRequest where
  writerName : String
  firstFrame : Int
  lastFrame : Int
  frameStep : Int
  deriving DecidableEq, Repr

/-- `AppInstance::RenderWork` (AppInstance.h lines 169-174): a resolved
writer (modelled by its fully-qualified name) plus a frame range. -/
structure RenderWork where
  writer : String
  firstFrame : Int
  lastFrame : Int
  frameStep : Int
  deriving DecidableEq, Repr

/-- Render-side failure taxonomy (spec §7). -/
inductive RenderError where
  | WriterNotFound (writerName : String)
  | InvalidFrameStep (writerName : String)
  deriving DecidableEq, Repr

/-- Modelled from the spec: the RenderJobBuilder behind the named overload of
`AppInstance::startWritersRendering` (declared at AppInstance.h line 322;
body not in the visible source).  Each named request is resolved
independently through `getNodeByFullySpecifiedName`; an unresolved name or a
zero frame step drops that single request with a reported error while every
sibling request still produces its RenderWork item (spec §4.4,
partial-failure semantics). -/
def buildRenderWork (g : NodeCollectionGraph) :
    List RenderRequest → List RenderWork × List RenderError
  | [] => ([], [])
  | r :: rs =>
    let rest := buildRenderWork g rs
    if r.frameStep = 0 then
      (rest.1, .InvalidFrameStep r.writerName :: rest.2)
    else
      match getNodeByFullySpecifiedName g r.writerName with
      | some n => (⟨n, r.firstFrame, r.lastFrame, r.frameStep⟩ :: rest.1, rest.2)
      | none => (rest.1, .WriterNotFound r.writerName :: rest.2)

/-- Outcome of rendering one work item through the external render engine
(spec §4.5: pixel rendering itself is outside this core). -/
inductive ItemOutcome where
  | success
  | failedAt (frame : Int)
  deriving DecidableEq, Repr

/-- Whether the item rendered to completion. -/
def ItemOutcome.isSuccess : ItemOutcome → Bool
  | .success => true
  | .failedAt _ => false

/-- The failing frame of a fatal item outcome, if any. -/
def ItemOutcome.failedFrame : ItemOutcome → Option Int
  | .success => none
  | .failedAt f => some f

/-- Result of a blocking batch: the items that completed, in list order, and
the single aggregate failure, if any, identifying the failing item and its
failing frame. -/
structure BlockingBatchResult where
  completed : List RenderWork
  failure : Option (RenderWork × Int)
  deriving DecidableEq, Repr

/-- Modelled from the spec: the blocking mode of
`AppInstance::startWritersRendering` (declared at AppInstance.h lines
322-323; body not in the visible source).  Items are executed in list order;
the first fatal per-item failure aborts the remaining items and becomes the
single aggregate failure; already-completed items stay completed and are not
reported as failed (spec §4.5, §8). -/
def runBlockingBatch (render : RenderWork → ItemOutcome) :
    List RenderWork → BlockingBatchResult
  | [] => ⟨[], none⟩
  | w :: ws =>
    match render w with
    | .success =>
      let rest := runBlockingBatch render ws
      ⟨w :: rest.completed, rest.failure⟩
    | .failedAt f => ⟨[], some (w, f)⟩

/-! ## Claim theorems -/

/-- C1 (counterexample): the claim states that a scoped acquisition of the
"creating node tree" flag restores the exact prior value of the flag on exit.  At
the concrete state in which an outer acquisition is already active (prior
value `true`), a nested scoped acquisition exits by resetting the flag, so
the prior value is not restored. -/
theorem C1_counterexample_nested_exit_resets :
    ¬ (isCreatingNodeTree
        (scopedCreatingNodeTree (creatingNodeTreeEnter ⟨false⟩) (fun s => s)) =
       isCreatingNodeTree (creatingNodeTreeEnter ⟨false⟩)) := by decide

/-- C1 (amended): every scoped acquisition of the "creating node tree" flag
sets the flag to true on entry and sets it unconditionally to false on exit;
in particular, when a nested acquisition exits while an outer acquisition is
still active, the flag becomes false rather than remaining true. -/
theorem C1_scoped_flag_sets_true_then_clears (s : AppInstanceFlags)
    (body : AppInstanceFlags → AppInstanceFlags) :
    isCreatingNodeTree (creatingNodeTreeEnter s) = true ∧
    isCreatingNodeTree (scopedCreatingNodeTree s body) = false :=
  ⟨rfl, rfl⟩

/-- C9: every invocation of the `CreateNodeArgs` constructor yields a request
whose `createGui` flag equals true, regardless of the constructor arguments:
no constructor parameter controls GUI creation. -/
theorem C9_constructor_createGui_always_true
    (pluginID multiInstanceParentName : String)
    (majorVersion minorVersion : Int) (autoConnect : Bool)
    (xPosHint yPosHint : Float)
    (pushUndoRedoCommand addToProject userEdited : Bool)
    (fixedName : String) (paramValues : List KnobSerialization)
    (group : Option String) :
    (CreateNodeArgs.construct pluginID multiInstanceParentName majorVersion
        minorVersion autoConnect xPosHint yPosHint pushUndoRedoCommand
        addToProject userEdited fixedName paramValues group).createGui = true :=
  rfl

/-- C10: for every title, message, html flag, button set, default button and
stopAsking value, the base (headless) `questionDialog` overload taking a
`stopAsking` output returns the Yes standard button and leaves `stopAsking`
unchanged, consulting no user, so every question-gated operation proceeds as
if the user accepted. -/
theorem C10_headless_questionDialog_returns_yes (title message : String)
    (useHtml : Bool) (buttons : StandardButtons)
    (defaultButton : StandardButtonEnum) (stopAsking : Bool) :
    questionDialogStopAsking title message useHtml buttons defaultButton
        stopAsking =
      (StandardButtonEnum.eStandardButtonYes, stopAsking) :=
  rfl

/-- C2: for every plugin identifier, resolved major version and requested
minor m with m ≠ -1, resolution selects the smallest registered minor that
is ≥ m under the chosen major, and fails with PluginVersionNotFound when no
registered minor under that major is ≥ m. -/
theorem C2_smallest_minor_at_least_requested (cat : PluginCatalog)
    (id : String) (requestedMajor m : Int) (maj : Nat) (hm : m ≠ -1)
    (hmaj : resolveMajor cat id requestedMajor = some maj) :
    ((∃ k ∈ catalogMinors cat id maj, m ≤ (k : Int)) →
      ∃ mi, resolve cat id requestedMajor m = .ok ⟨id, maj, mi⟩ ∧
        mi ∈ catalogMinors cat id maj ∧ m ≤ (mi : Int) ∧
        ∀ k ∈ catalogMinors cat id maj, m ≤ (k : Int) → mi ≤ k) ∧
    ((∀ k ∈ catalogMinors cat id maj, ¬ (m ≤ (k : Int))) →
      resolve cat id requestedMajor m = .error .PluginVersionNotFound) := by
  have hres : resolve cat id requestedMajor m =
      match resolveMinor (catalogMinors cat id maj) m with
      | none => .error .PluginVersionNotFound
      | some mi => .ok ⟨id, maj, mi⟩ := by
    unfold resolve; rw [hmaj]
  constructor
  · rintro ⟨k, hk, hmk⟩
    have hkq : k ∈ (catalogMinors cat id maj).filter
        (fun k : Nat => decide (m ≤ (k : Int))) :=
      List.mem_filter.mpr ⟨hk, by simpa using hmk⟩
    obtain ⟨mi, hmi⟩ := listMin_ne_none (List.ne_nil_of_mem hkq)
    have hminor : resolveMinor (catalogMinors cat id maj) m = some mi := by
      unfold resolveMinor; rw [if_neg hm]; exact hmi
    have hmem := List.mem_filter.mp (listMin_mem hmi)
    refine ⟨mi, ?_, hmem.1, by simpa using hmem.2, ?_⟩
    · rw [hres, hminor]
    · intro k2 hk2 hmk2
      exact listMin_le hmi k2 (List.mem_filter.mpr ⟨hk2, by simpa using hmk2⟩)
  · intro hall
    have hq : (catalogMinors cat id maj).filter
        (fun k : Nat => decide (m ≤ (k : Int))) = [] := by
      rw [List.filter_eq_nil_iff]
      intro a ha
      simpa using hall a ha
    have hminor : resolveMinor (catalogMinors cat id maj) m = none := by
      unfold resolveMinor; rw [if_neg hm, hq]; rfl
    rw [hres, hminor]

/-- Witness for C2: in the catalog registering minors {0, 2, 5} of "p" under
major 1, requesting minor 1 resolves to minor 2, the smallest minor ≥ 1. -/
theorem C2_smallest_minor_witness :
    (1 : Int) ≠ -1 ∧
    resolveMajor [⟨"p",1,0⟩, ⟨"p",1,2⟩, ⟨"p",1,5⟩] "p" 1 = some 1 ∧
    (∃ mi, resolve [⟨"p",1,0⟩, ⟨"p",1,2⟩, ⟨"p",1,5⟩] "p" 1 1 = .ok ⟨"p", 1, mi⟩ ∧
      mi ∈ catalogMinors [⟨"p",1,0⟩, ⟨"p",1,2⟩, ⟨"p",1,5⟩] "p" 1 ∧
      (1 : Int) ≤ (mi : Int) ∧
      ∀ k ∈ catalogMinors [⟨"p",1,0⟩, ⟨"p",1,2⟩, ⟨"p",1,5⟩] "p" 1,
        (1 : Int) ≤ (k : Int) → mi ≤ k) :=
  ⟨by decide, by decide,
    (C2_smallest_minor_at_least_requested [⟨"p",1,0⟩, ⟨"p",1,2⟩, ⟨"p",1,5⟩]
        "p" 1 1 1 (by decide) (by decide)).1 ⟨2, by decide, by decide⟩⟩

/-- C4: for every identifier present in the catalog, resolving with
requestedMajor = -1 selects the greatest registered major for that
identifier, and resolving with a specific requestedMajor that has no
registered entry for that identifier fails with PluginNotFound. -/
theorem C4_major_resolution (cat : PluginCatalog) (id : String)
    (hpresent : ∃ e ∈ cat, e.identifier = id) :
    (∃ maj, resolveMajor cat id (-1) = some maj ∧
        maj ∈ catalogMajors cat id ∧ ∀ k ∈ catalogMajors cat id, k ≤ maj) ∧
    (∀ requestedMajor : Int, requestedMajor ≠ -1 →
      (∀ k ∈ catalogMajors cat id, (k : Int) ≠ requestedMajor) →
      ∀ requestedMinor, resolve cat id requestedMajor requestedMinor =
        .error .PluginNotFound) := by
  constructor
  · obtain ⟨e, he, hid⟩ := hpresent
    have hmem : e.major ∈ catalogMajors cat id := by
      unfold catalogMajors
      exact List.mem_map.mpr ⟨e, List.mem_filter.mpr ⟨he, by simp [hid]⟩, rfl⟩
    obtain ⟨maj, hmaj⟩ := listMax_ne_none (List.ne_nil_of_mem hmem)
    refine ⟨maj, ?_, listMax_mem hmaj, le_listMax hmaj⟩
    unfold resolveMajor; rw [if_pos rfl]; exact hmaj
  · intro rM hrM hnone rMin
    have hany : (catalogMajors cat id).any
        (fun k => decide ((k : Int) = rM)) = false := by
      rw [List.any_eq_false]
      intro k hk
      simpa using hnone k hk
    have hnoneM : resolveMajor cat id rM = none := by
      unfold resolveMajor
      rw [if_neg hrM]
      simp [hany]
    unfold resolve
    rw [hnoneM]

/-- Witness for C4: in the catalog registering majors {1, 3} of "p",
requesting major -1 resolves to major 3, and requesting major 2 fails with
PluginNotFound. -/
theorem C4_major_resolution_witness :
    (∃ e ∈ ([⟨"p",1,0⟩, ⟨"p",3,4⟩] : PluginCatalog), e.identifier = "p") ∧
    ((∃ maj, resolveMajor [⟨"p",1,0⟩, ⟨"p",3,4⟩] "p" (-1) = some maj ∧
        maj ∈ catalogMajors [⟨"p",1,0⟩, ⟨"p",3,4⟩] "p" ∧
        ∀ k ∈ catalogMajors [⟨"p",1,0⟩, ⟨"p",3,4⟩] "p", k ≤ maj) ∧
     (∀ requestedMajor : Int, requestedMajor ≠ -1 →
       (∀ k ∈ catalogMajors [⟨"p",1,0⟩, ⟨"p",3,4⟩] "p",
          (k : Int) ≠ requestedMajor) →
       ∀ requestedMinor,
         resolve [⟨"p",1,0⟩, ⟨"p",3,4⟩] "p" requestedMajor requestedMinor =
           .error .PluginNotFound)) :=
  ⟨⟨⟨"p",1,0⟩, by decide, by decide⟩,
   C4_major_resolution [⟨"p",1,0⟩, ⟨"p",3,4⟩] "p" ⟨⟨"p",1,0⟩, by decide, by decide⟩⟩

/-- An element of a list of strings is no longer than the sum of the
lengths of the elements of the list. -/
theorem length_le_sum_of_mem {l : List String} {x : String} (h : x ∈ l) :
    x.length ≤ (l.map String.length).sum := by
  induction l with
  | nil => cases h
  | cons y ys ih =>
    rcases List.mem_cons.mp h with rfl | h2
    · simp
    · simp only [List.map_cons, List.sum_cons]
      exact Nat.le_trans (ih h2) (Nat.le_add_left _ _)

/-- The auto-suffixed name is strictly longer than every existing name, so
it collides with none of them. -/
theorem autoSuffix_not_mem (existing : List String) (base : String) :
    autoSuffix existing base ∉ existing := by
  intro hmem
  have hle := length_le_sum_of_mem hmem
  have hlen : (autoSuffix existing base).length =
      base.length + ((existing.map String.length).sum + 1) := by
    simp [autoSuffix]
  omega

/-- A name produced by `generateNodeName` never collides with an existing
name in the collection. -/
theorem generateNodeName_ok_not_mem {g : NodeCollectionGraph}
    {pluginID : String} {fixedName : Option String} {strictFixedName : Bool}
    {nm : String}
    (h : generateNodeName g pluginID fixedName strictFixedName = .ok nm) :
    nm ∉ g.nodes := by
  cases fixedName with
  | some fn =>
    simp only [generateNodeName] at h
    by_cases hfn : fn ∈ g.nodes
    · rw [if_pos hfn] at h
      cases strictFixedName
      · rw [if_neg Bool.false_ne_true] at h
        injection h with h2
        subst h2
        exact autoSuffix_not_mem _ _
      · rw [if_pos rfl] at h
        exact absurd h (by simp)
    · rw [if_neg hfn] at h
      injection h with h2
      subst h2
      exact hfn
  | none =>
    simp only [generateNodeName] at h
    by_cases hp : pluginID ∈ g.nodes
    · rw [if_pos hp] at h
      injection h with h2
      subst h2
      exact autoSuffix_not_mem _ _
    · rw [if_neg hp] at h
      injection h with h2
      subst h2
      exact hp

/-- Every failing path of `createNodeModel` returns the untouched graph. -/
theorem createNodeModel_error_graph_eq (cat : PluginCatalog)
    (g : NodeCollectionGraph) (pluginID : String) (majorV minorV : Int)
    (fixedName : Option String) (strictFixedName : Bool)
    (constructionOk : Bool) (e : NodeCreationError)
    (he : (createNodeModel cat g pluginID majorV minorV fixedName
        strictFixedName constructionOk).1 = .error e) :
    (createNodeModel cat g pluginID majorV minorV fixedName strictFixedName
        constructionOk).2 = g := by
  unfold createNodeModel at he ⊢
  cases hres : resolve cat pluginID majorV minorV with
  | error e2 => rfl
  | ok p =>
    rw [hres] at he
    cases hname : generateNodeName g pluginID fixedName strictFixedName with
    | error e2 => rfl
    | ok nm =>
      rw [hname] at he
      cases constructionOk
      · rfl
      · simp at he

/-- `createNodeModel` preserves name uniqueness in the collection. -/
theorem createNodeModel_preserves_nodup (cat : PluginCatalog)
    (g : NodeCollectionGraph) (pluginID : String) (majorV minorV : Int)
    (fixedName : Option String) (strictFixedName : Bool)
    (constructionOk : Bool) (hnodup : g.nodes.Nodup) :
    ((createNodeModel cat g pluginID majorV minorV fixedName strictFixedName
        constructionOk).2).nodes.Nodup := by
  unfold createNodeModel
  cases hres : resolve cat pluginID majorV minorV with
  | error e => exact hnodup
  | ok p =>
    cases hname : generateNodeName g pluginID fixedName strictFixedName with
    | error e => exact hnodup
    | ok nm =>
      cases constructionOk
      · exact hnodup
      · have hnot := generateNodeName_ok_not_mem hname
        simp [List.nodup_append, hnodup, hnot]

/-- C3: every node-creation request that fails — with PluginNotFound,
PluginVersionNotFound, NameCollision or ConstructionFailed — leaves the
NodeCollectionGraph exactly as it was before the call, for createNode and
loadNode alike: no partially-inserted node remains, the node count is
unchanged, and the error is returned to the caller. -/
theorem C3_failed_creation_is_all_or_nothing (cat : PluginCatalog)
    (g : NodeCollectionGraph) (pluginID : String) (majorV minorV : Int)
    (fixedName : Option String) (strictFixedName : Bool)
    (serializedName : String) (dontLoadName : Bool) (constructionOk : Bool) :
    (∀ e : NodeCreationError,
      (createNodeModel cat g pluginID majorV minorV fixedName strictFixedName
          constructionOk).1 = .error e →
      (createNodeModel cat g pluginID majorV minorV fixedName strictFixedName
          constructionOk).2 = g ∧
      ((createNodeModel cat g pluginID majorV minorV fixedName strictFixedName
          constructionOk).2).nodes.length = g.nodes.length) ∧
    (∀ e : NodeCreationError,
      (loadNodeModel cat g pluginID majorV minorV serializedName dontLoadName
          constructionOk).1 = .error e →
      (loadNodeModel cat g pluginID majorV minorV serializedName dontLoadName
          constructionOk).2 = g ∧
      ((loadNodeModel cat g pluginID majorV minorV serializedName dontLoadName
          constructionOk).2).nodes.length = g.nodes.length) := by
  constructor
  · intro e he
    have hg := createNodeModel_error_graph_eq cat g pluginID majorV minorV
      fixedName strictFixedName constructionOk e he
    exact ⟨hg, by rw [hg]⟩
  · intro e he
    unfold loadNodeModel at he ⊢
    have hg := createNodeModel_error_graph_eq cat g pluginID majorV minorV
      (if dontLoadName then none else some serializedName) false
      constructionOk e he
    exact ⟨hg, by rw [hg]⟩

/-- Witness for C3: with an empty catalog the creation fails with
PluginNotFound and the one-node graph is returned unchanged. -/
theorem C3_all_or_nothing_witness :
    (createNodeModel [] ⟨["n"]⟩ "p" 1 0 none false true).1 =
        .error .PluginNotFound ∧
    ((createNodeModel [] ⟨["n"]⟩ "p" 1 0 none false true).2 = ⟨["n"]⟩ ∧
      ((createNodeModel [] ⟨["n"]⟩ "p" 1 0 none false true).2).nodes.length =
        (NodeCollectionGraph.mk ["n"]).nodes.length) :=
  ⟨by decide,
   (C3_failed_creation_is_all_or_nothing [] ⟨["n"]⟩ "p" 1 0 none false "s"
      false true).1 .PluginNotFound (by decide)⟩

/-- C7: node creation preserves the invariant that fully-qualified names are
unique within the owning collection, under every naming policy; on a
colliding fixed name the default policy assigns a unique auto-suffixed name
while the strict fixed-name policy fails with NameCollision. -/
theorem C7_sibling_name_uniqueness (cat : PluginCatalog)
    (g : NodeCollectionGraph) (pluginID : String) (majorV minorV : Int)
    (fn : String) (hnodup : g.nodes.Nodup) :
    (∀ (fixedName : Option String) (strictFixedName constructionOk : Bool),
      ((createNodeModel cat g pluginID majorV minorV fixedName strictFixedName
          constructionOk).2).nodes.Nodup) ∧
    (∀ p, resolve cat pluginID majorV minorV = .ok p → fn ∈ g.nodes →
      ((createNodeModel cat g pluginID majorV minorV (some fn) false true).1 =
          .ok (autoSuffix g.nodes fn) ∧
        autoSuffix g.nodes fn ∉ g.nodes) ∧
      (createNodeModel cat g pluginID majorV minorV (some fn) true true).1 =
        .error .NameCollision) := by
  constructor
  · intro fixedName strictFixedName constructionOk
    exact createNodeModel_preserves_nodup cat g pluginID majorV minorV
      fixedName strictFixedName constructionOk hnodup
  · intro p hres hmem
    refine ⟨⟨?_, autoSuffix_not_mem _ _⟩, ?_⟩
    · simp [createNodeModel, hres, generateNodeName, hmem]
    · simp [createNodeModel, hres, generateNodeName, hmem]

/-- Witness for C7: creating over the one-node graph ["n"] with colliding
fixed name "n" auto-suffixes under the default policy and fails with
NameCollision under the strict policy. -/
theorem C7_name_uniqueness_witness :
    (NodeCollectionGraph.mk ["n"]).nodes.Nodup ∧
    (((createNodeModel [⟨"p",1,0⟩] ⟨["n"]⟩ "p" 1 0 (some "n") false true).1 =
        .ok (autoSuffix ["n"] "n") ∧
      autoSuffix ["n"] "n" ∉ (NodeCollectionGraph.mk ["n"]).nodes) ∧
      (createNodeModel [⟨"p",1,0⟩] ⟨["n"]⟩ "p" 1 0 (some "n") true true).1 =
        .error .NameCollision) :=
  ⟨by decide,
   (C7_sibling_name_uniqueness [⟨"p",1,0⟩] ⟨["n"]⟩ "p" 1 0 "n" (by decide)).2
     ⟨"p", 1, 0⟩ (by decide) (by decide)⟩

/-- C5: for every list of named render requests with valid frame steps, a
request whose writer name does not resolve to a node via
fully-qualified-name lookup yields one reported WriterNotFound error for
that single request only, while every sibling request that does resolve
still produces its RenderWork item: the produced work list is exactly the
resolved requests and the error list exactly the unresolved ones —
partial-failure semantics, never a total failure of the batch. -/
theorem C5_partial_failure_semantics (g : NodeCollectionGraph)
    (reqs : List RenderRequest) (hstep : ∀ r ∈ reqs, r.frameStep ≠ 0) :
    (buildRenderWork g reqs).1 =
      (reqs.filter (fun r => decide (r.writerName ∈ g.nodes))).map
        (fun r => ⟨r.writerName, r.firstFrame, r.lastFrame, r.frameStep⟩) ∧
    (buildRenderWork g reqs).2 =
      (reqs.filter (fun r => !(decide (r.writerName ∈ g.nodes)))).map
        (fun r => RenderError.WriterNotFound r.writerName) := by
  induction reqs with
  | nil => exact ⟨rfl, rfl⟩
  | cons r rs ih =>
    have hr : r.frameStep ≠ 0 := hstep r (List.mem_cons_self _ _)
    obtain ⟨ih1, ih2⟩ := ih (fun x hx => hstep x (List.mem_cons_of_mem _ hx))
    by_cases hm : r.writerName ∈ g.nodes <;>
      simp [buildRenderWork, hr, getNodeByFullySpecifiedName, hm,
        List.filter_cons, ih1, ih2]

/-- Witness for C5, the spec §8 example: with writer "W1" registered, the
requests [{W1,1,10,1}, {missing,1,5,1}] build one resolved RenderWork for W1
and one reported WriterNotFound for "missing". -/
theorem C5_partial_failure_witness :
    (∀ r ∈ ([⟨"W1",1,10,1⟩, ⟨"missing",1,5,1⟩] : List RenderRequest),
      r.frameStep ≠ 0) ∧
    ((buildRenderWork ⟨["W1"]⟩ [⟨"W1",1,10,1⟩, ⟨"missing",1,5,1⟩]).1 =
      (([⟨"W1",1,10,1⟩, ⟨"missing",1,5,1⟩] : List RenderRequest).filter
          (fun r => decide (r.writerName ∈ (NodeCollectionGraph.mk ["W1"]).nodes))).map
        (fun r => ⟨r.writerName, r.firstFrame, r.lastFrame, r.frameStep⟩) ∧
     (buildRenderWork ⟨["W1"]⟩ [⟨"W1",1,10,1⟩, ⟨"missing",1,5,1⟩]).2 =
      (([⟨"W1",1,10,1⟩, ⟨"missing",1,5,1⟩] : List RenderRequest).filter
          (fun r => !(decide (r.writerName ∈ (NodeCollectionGraph.mk ["W1"]).nodes)))).map
        (fun r => RenderError.WriterNotFound r.writerName)) :=
  ⟨by decide,
   C5_partial_failure_semantics ⟨["W1"]⟩ [⟨"W1",1,10,1⟩, ⟨"missing",1,5,1⟩]
     (by decide)⟩

/-- C6: a blocking batch executes its work items in list order until the
first fatal per-item failure: the completed items are exactly the longest
all-successful front of the list, they are not rolled back and not reported
as failed, and the single aggregate failure names the first failing item
(its writer and range, inside the RenderWork) together with its failing
frame; all items after the failing one are aborted and reported nowhere. -/
theorem C6_blocking_stops_at_first_failure (render : RenderWork → ItemOutcome)
    (ws : List RenderWork) :
    (runBlockingBatch render ws).completed =
      ws.takeWhile (fun w => (render w).isSuccess) ∧
    (runBlockingBatch render ws).failure =
      (ws.dropWhile (fun w => (render w).isSuccess)).head?.bind
        (fun w => ((render w).failedFrame).map (fun f => (w, f))) := by
  induction ws with
  | nil => exact ⟨rfl, rfl⟩
  | cons w ws ih =>
    cases hr : render w with
    | success =>
      simp [runBlockingBatch, hr, List.takeWhile_cons, List.dropWhile_cons,
        ItemOutcome.isSuccess, ih.1, ih.2]
    | failedAt f =>
      simp [runBlockingBatch, hr, List.takeWhile_cons, List.dropWhile_cons,
        ItemOutcome.isSuccess, ItemOutcome.failedFrame]

/-- C8: when a resolution attempt fails and the session-wide legacy
lower-case-identifiers compatibility flag is set, a second resolution
attempt is made with the identifier lower-cased; when the flag is unset no
second attempt occurs and the first failure is the final result; when the
first attempt succeeds, the flag is irrelevant. -/
theorem C8_legacy_lowercase_retry (cat : PluginCatalog) (id : String)
    (requestedMajor requestedMinor : Int) :
    (∀ e, resolve cat id requestedMajor requestedMinor = .error e →
      resolveWithLegacyFallback cat true id requestedMajor requestedMinor =
        resolve cat (lowerCaseID id) requestedMajor requestedMinor ∧
      resolveWithLegacyFallback cat false id requestedMajor requestedMinor =
        .error e) ∧
    (∀ p, resolve cat id requestedMajor requestedMinor = .ok p →
      ∀ flag, resolveWithLegacyFallback cat flag id requestedMajor
        requestedMinor = .ok p) := by
  constructor
  · intro e he
    constructor <;> unfold resolveWithLegacyFallback <;> rw [he] <;> simp
  · intro p hp flag
    unfold resolveWithLegacyFallback
    rw [hp]

/-- Witness for C8: with only "blur" registered, resolving "Blur" fails;
with the legacy flag set the lower-cased retry runs (and here succeeds),
and with the flag unset the original failure is final. -/
theorem C8_legacy_lowercase_witness :
    resolve [⟨"blur",1,0⟩] "Blur" 1 0 = .error .PluginNotFound ∧
    (resolveWithLegacyFallback [⟨"blur",1,0⟩] true "Blur" 1 0 =
        resolve [⟨"blur",1,0⟩] (lowerCaseID "Blur") 1 0 ∧
      resolveWithLegacyFallback [⟨"blur",1,0⟩] false "Blur" 1 0 =
        .error .PluginNotFound) :=
  ⟨by decide,
   (C8_legacy_lowercase_retry [⟨"blur",1,0⟩] "Blur" 1 0).1 .PluginNotFound
     (by decide)⟩
